import Mathlib

/-
Shallow embedding of the booking / review engine of the VehicleRental backend
(Express + Mongoose).  Sources:
  src/models/Booking.js        (schema, checkAvailability, pre-save hook)
  src/models/Review.js         (schema, calcAverageRating, hooks)
  src/unnamed/part_003         (bookingController: createBooking,
                                updateBookingStatus, cancelBooking)
  src/controllers/reviewController.js (createReview, deleteReview)

Modelling conventions:
  - Mongo ObjectIds are Nat; Date values are Int (milliseconds since epoch,
    as produced by Date.prototype.getTime()).
  - JS numbers holding prices and ratings are modelled as exact rationals;
    Math.ceil of the millisecond quotient is the exact rational ceiling and
    JS Math.round x is modelled as floor (x + 1/2) (round half toward +inf),
    which agrees with IEEE doubles on all inputs relevant here.
  - Each controller handler is a pure function from a Store (the document
    collections) and its request parameters to a response plus a new Store.
  - Mongoose semantics embedded faithfully: document middleware
    pre('save') / post('save') / post('remove') runs only on Document.save /
    Document.remove (hence on Model.create), while the query operations
    findByIdAndUpdate / findByIdAndDelete used by the controllers do NOT
    trigger any of those document hooks.
-/

namespace VehicleRental

/-- Booking status enum from src/models/Booking.js lines 39-43. -/
inductive BookingStatus where
  | pending | approved | rejected | active | completed | cancelled
deriving DecidableEq, Repr

/-- Caller role resolved by the auth middleware (user or admin). -/
inductive Role where
  | user | admin
deriving DecidableEq, Repr

/-- Vehicle document, the fields relevant to the booking/review engine
(src/models/Booking.js companion schema: pricePerDay, availability,
averageRating, totalReviews). -/
structure Vehicle where
  id : Nat
  pricePerDay : ℚ
  availability : Bool
  averageRating : ℚ
  totalReviews : Nat
deriving DecidableEq, Repr

/-- Booking document (src/models/Booking.js lines 3-80). -/
structure Booking where
  id : Nat
  userId : Nat
  vehicleId : Nat
  startDate : ℤ
  endDate : ℤ
  totalPrice : ℚ
  status : BookingStatus
  pickupLocation : String
  dropoffLocation : String
  specialRequests : Option String
  cancellationReason : Option String
  adminNotes : Option String
deriving DecidableEq, Repr

/-- Review document (src/models/Review.js lines 3-62), the fields the engine
reads. -/
structure Review where
  id : Nat
  userId : Nat
  vehicleId : Nat
  bookingId : Nat
  rating : Nat
  comment : Option String
deriving DecidableEq, Repr

/-- The document store: the Booking, Vehicle and Review collections plus the
counters standing in for Mongo ObjectId generation. -/
structure Store where
  bookings : List Booking
  vehicles : List Vehicle
  reviews : List Review
  nextBookingId : Nat
  nextReviewId : Nat
deriving DecidableEq, Repr

/-- HTTP response of a handler: an error with its status code and message, or
a success with its status code and payload, mirroring the
res.status(...).json({success, data or message}) envelopes. -/
inductive ApiResult (α : Type) where
  | err (httpStatus : Nat) (message : String)
  | ok (httpStatus : Nat) (value : α)
deriving DecidableEq, Repr

/-- Status values counted as blocking in the availability query:
status: \x7b $in: ['approved', 'active'] \x7d (src/models/Booking.js line 101). -/
def isBlockingStatus : BookingStatus → Bool
  | .approved => true
  | .active => true
  | _ => false

/-- The per-document availability filter of Booking.checkAvailability
(src/models/Booking.js lines 99-112): same vehicle, status in
approved/active, startDate < endDate-of-query and endDate > startDate-of-query,
and id different from excludeBookingId when one is given. -/
def conflictsWith (vehicleId : Nat) (startDate endDate : ℤ)
    (excludeBookingId : Option Nat) (b : Booking) : Bool :=
  decide (b.vehicleId = vehicleId)
    && isBlockingStatus b.status
    && decide (b.startDate < endDate)
    && decide (b.endDate > startDate)
    && match excludeBookingId with
       | some x => !decide (b.id = x)
       | none => true

/-- Booking.checkAvailability (src/models/Booking.js lines 98-116): findOne on
the conflict filter, returning true iff no conflicting booking exists. -/
def checkAvailability (bookings : List Booking) (vehicleId : Nat)
    (startDate endDate : ℤ) (excludeBookingId : Option Nat) : Bool :=
  (bookings.find? (conflictsWith vehicleId startDate endDate excludeBookingId)).isNone

/-- Booking.findById: first document with the given id. -/
def findBookingById (s : Store) (id : Nat) : Option Booking :=
  s.bookings.find? (fun b => decide (b.id = id))

/-- Vehicle.findById: first document with the given id. -/
def findVehicleById (s : Store) (id : Nat) : Option Vehicle :=
  s.vehicles.find? (fun v => decide (v.id = id))

/-- Milliseconds per day, the divisor 1000 * 3600 * 24 of the duration
computation (src/unnamed/part_003 line 150). -/
def msPerDay : ℤ := 1000 * 3600 * 24

/-- Request body of POST /bookings after express-validator has accepted it
(src/routes/bookingRoutes.js bookingValidation). -/
structure CreateBookingInput where
  vehicleId : Nat
  startDate : ℤ
  endDate : ℤ
  pickupLocation : String
  dropoffLocation : String
  specialRequests : Option String
deriving DecidableEq, Repr

/-- The pre('save') middleware of the Booking schema (src/models/Booking.js
lines 119-135): on a new document it re-runs checkAvailability excluding the
document's own id and fails with a ValidationError when unavailable. -/
def bookingPreSaveOk (bookings : List Booking) (b : Booking) : Bool :=
  checkAvailability bookings b.vehicleId b.startDate b.endDate (some b.id)

/-- Document passed to Booking.create by createBooking (src/unnamed/part_003
lines 148-164): totalPrice = Math.ceil(timeDiff / (1000*3600*24)) *
vehicle.pricePerDay and initial status pending. -/
def newBooking (s : Store) (callerUserId : Nat) (input : CreateBookingInput)
    (vehicle : Vehicle) : Booking :=
  let timeDiff : ℤ := input.endDate - input.startDate
  let days : ℤ := ⌈(timeDiff : ℚ) / (msPerDay : ℚ)⌉
  { id := s.nextBookingId
    userId := callerUserId
    vehicleId := input.vehicleId
    startDate := input.startDate
    endDate := input.endDate
    totalPrice := (days : ℚ) * vehicle.pricePerDay
    status := .pending
    pickupLocation := input.pickupLocation
    dropoffLocation := input.dropoffLocation
    specialRequests := input.specialRequests
    cancellationReason := none
    adminNotes := none }

/-- createBooking handler (src/unnamed/part_003 lines 106-181), after
express-validator accepted the body: 404 when the vehicle does not resolve,
400 when vehicle.availability is false, 400 when checkAvailability finds a
date conflict; otherwise Booking.create of the newBooking document.
Booking.create runs the pre('save') hook; were it to throw, the catch block
would answer 500. -/
def createBooking (s : Store) (callerUserId : Nat) (input : CreateBookingInput) :
    ApiResult Booking × Store :=
  match findVehicleById s input.vehicleId with
  | none => (.err 404 "Vehicle not found", s)
  | some vehicle =>
    if vehicle.availability = false then
      (.err 400 "Vehicle is not available", s)
    else if checkAvailability s.bookings input.vehicleId input.startDate
        input.endDate none = false then
      (.err 400 "Vehicle is not available for the selected dates", s)
    else
      let b : Booking := newBooking s callerUserId input vehicle
      if bookingPreSaveOk s.bookings b then
        (.ok 201 b,
         { s with bookings := s.bookings ++ [b],
                  nextBookingId := s.nextBookingId + 1 })
      else
        (.err 500 "Server error while creating booking", s)

/-- Field update applied by updateBookingStatus's findByIdAndUpdate
(src/unnamed/part_003 lines 207-217): sets status, and adminNotes only when
the provided value is truthy (the JS spread ...(adminNotes && \x7b adminNotes \x7d)
skips undefined and the empty string). -/
def applyStatusUpdate (status : BookingStatus) (adminNotes : Option String)
    (b : Booking) : Booking :=
  { b with status := status
           adminNotes := match adminNotes with
             | some a => if a = "" then b.adminNotes else some a
             | none => b.adminNotes }

/-- updateBookingStatus handler (src/unnamed/part_003 lines 186-232); the
route restricts it to admins.  The status value has already passed the enum
membership check of line 190 (it is a BookingStatus).  404 when the booking
does not resolve; otherwise findByIdAndUpdate sets the fields and returns the
updated document.  findByIdAndUpdate does not run the pre('save')
availability hook, so no conflict re-check happens here. -/
def updateBookingStatus (s : Store) (bookingId : Nat) (status : BookingStatus)
    (adminNotes : Option String) : ApiResult Booking × Store :=
  match findBookingById s bookingId with
  | none => (.err 404 "Booking not found", s)
  | some booking =>
    (.ok 200 (applyStatusUpdate status adminNotes booking),
     { s with bookings := s.bookings.map (fun b =>
         if b.id = bookingId then applyStatusUpdate status adminNotes b else b) })

/-- Field update applied by cancelBooking's findByIdAndUpdate
(src/unnamed/part_003 lines 267-277): sets status cancelled; an undefined
cancellationReason is stripped from the update by Mongoose, leaving the old
value. -/
def applyCancel (cancellationReason : Option String) (b : Booking) : Booking :=
  { b with status := .cancelled
           cancellationReason := match cancellationReason with
             | some r => some r
             | none => b.cancellationReason }

/-- cancelBooking handler (src/unnamed/part_003 lines 237-292): 404 when the
booking does not resolve, 403 when the caller is neither admin nor the owner,
400 when the current status is outside pending/approved, otherwise
findByIdAndUpdate sets status cancelled and the cancellationReason. -/
def cancelBooking (s : Store) (callerUserId : Nat) (callerRole : Role)
    (bookingId : Nat) (cancellationReason : Option String) :
    ApiResult Booking × Store :=
  match findBookingById s bookingId with
  | none => (.err 404 "Booking not found", s)
  | some booking =>
    if !decide (callerRole = Role.admin) && !decide (booking.userId = callerUserId) then
      (.err 403 "Not authorized to cancel this booking", s)
    else if !(decide (booking.status = BookingStatus.pending)
        || decide (booking.status = BookingStatus.approved)) then
      (.err 400 "Booking cannot be cancelled in current status", s)
    else
      (.ok 200 (applyCancel cancellationReason booking),
       { s with bookings := s.bookings.map (fun b =>
           if b.id = bookingId then applyCancel cancellationReason b else b) })

/-- Reviews of a given vehicle, the $match stage of the calcAverageRating
aggregation (src/models/Review.js line 77). -/
def reviewsOfVehicle (reviews : List Review) (vehicleId : Nat) : List Review :=
  reviews.filter (fun r => decide (r.vehicleId = vehicleId))

/-- JS Math.round: round half toward positive infinity. -/
def jsRound (q : ℚ) : ℤ := ⌊q + 1 / 2⌋

/-- Review.calcAverageRating (src/models/Review.js lines 74-99): aggregate the
vehicle's reviews; with at least one review set
averageRating = Math.round(avg * 10) / 10 and totalReviews = count on the
vehicle, otherwise reset both to 0. -/
def calcAverageRating (s : Store) (vehicleId : Nat) : Store :=
  let rs := reviewsOfVehicle s.reviews vehicleId
  if rs.isEmpty then
    { s with vehicles := s.vehicles.map (fun v =>
        if v.id = vehicleId then { v with averageRating := 0, totalReviews := 0 }
        else v) }
  else
    let avg : ℚ := ((rs.map (fun r => (r.rating : ℚ))).sum) / (rs.length : ℚ)
    let rounded : ℚ := (jsRound (avg * 10) : ℚ) / 10
    { s with vehicles := s.vehicles.map (fun v =>
        if v.id = vehicleId then
          { v with averageRating := rounded, totalReviews := rs.length }
        else v) }

/-- Booking.findOne filter of createReview (src/controllers/reviewController.js
lines 114-119) and of the Review pre('save') hook (src/models/Review.js lines
114-119): the booking with the given id, owned by the user, on the vehicle,
with status completed. -/
def findCompletedBooking (bookings : List Booking) (bookingId userId vehicleId : Nat) :
    Option Booking :=
  bookings.find? (fun b =>
    decide (b.id = bookingId) && decide (b.userId = userId)
      && decide (b.vehicleId = vehicleId)
      && decide (b.status = BookingStatus.completed))

/-- createReview handler (src/controllers/reviewController.js lines 99-165)
after express-validator accepted the body: 404 when no completed booking of
the caller on the vehicle matches bookingId, 400 when the caller already
reviewed that booking, otherwise Review.create.  Review.create runs the
pre('save') guard (which re-finds the completed booking, succeeding here) and
then the post('save') hook, which invokes calcAverageRating on the vehicle. -/
def createReview (s : Store) (callerUserId : Nat) (vehicleId bookingId : Nat)
    (rating : Nat) (comment : Option String) : ApiResult Review × Store :=
  match findCompletedBooking s.bookings bookingId callerUserId vehicleId with
  | none => (.err 404 "Completed booking not found or does not belong to you", s)
  | some _ =>
    match s.reviews.find? (fun r => decide (r.userId = callerUserId) && decide (r.bookingId = bookingId)) with
    | some _ => (.err 400 "You have already reviewed this booking", s)
    | none =>
      let r : Review :=
        { id := s.nextReviewId
          userId := callerUserId
          vehicleId := vehicleId
          bookingId := bookingId
          rating := rating
          comment := comment }
      if (findCompletedBooking s.bookings bookingId callerUserId vehicleId).isSome then
        let s1 : Store :=
          { s with reviews := s.reviews ++ [r], nextReviewId := s.nextReviewId + 1 }
        (.ok 201 r, calcAverageRating s1 vehicleId)
      else
        (.err 500 "Server error while creating review", s)

/-- deleteReview handler (src/controllers/reviewController.js lines 229-261):
404 when the review does not resolve, 403 when the caller is neither the
author nor an admin, otherwise Review.findByIdAndDelete.  findByIdAndDelete
is a query operation: it does NOT fire the document post('remove') hook of
src/models/Review.js lines 107-109, so calcAverageRating is not invoked and
the vehicle rollup fields are left as they were. -/
def deleteReview (s : Store) (callerUserId : Nat) (callerRole : Role)
    (reviewId : Nat) : ApiResult Unit × Store :=
  match s.reviews.find? (fun r => decide (r.id = reviewId)) with
  | none => (.err 404 "Review not found", s)
  | some review =>
    if !decide (review.userId = callerUserId) && !decide (callerRole = Role.admin) then
      (.err 403 "Not authorized to delete this review", s)
    else
      (.ok 200 (), { s with reviews := s.reviews.filter (fun r => !decide (r.id = reviewId)) })

/-- Two bookings form a forbidden pair when they are on the same vehicle, both
have a blocking status (approved or active) and their [startDate, endDate)
intervals overlap under the half-open rule. -/
def conflictingPair (b1 b2 : Booking) : Bool :=
  decide (b1.vehicleId = b2.vehicleId)
    && isBlockingStatus b1.status && isBlockingStatus b2.status
    && decide (b1.startDate < b2.endDate) && decide (b1.endDate > b2.startDate)

/-- The no-double-booking invariant over a Booking collection: no two distinct
documents form a conflicting pair. -/
def noDoubleBooking : List Booking → Bool
  | [] => true
  | b :: rest => rest.all (fun b2 => !(conflictingPair b b2)) && noDoubleBooking rest

/-- HTTP status code of a success response, none on an error response. -/
def okStatusCode {α : Type} (r : ApiResult α) : Option Nat :=
  match r with
  | .ok c _ => some c
  | .err _ _ => none

/-- HTTP status code of an error response, none on a success response. -/
def errStatusCode {α : Type} (r : ApiResult α) : Option Nat :=
  match r with
  | .err c _ => some c
  | .ok _ _ => none

/-- Status field of the booking returned by a successful response. -/
def okBookingStatus (r : ApiResult Booking) : Option BookingStatus :=
  match r with
  | .ok _ b => some b.status
  | .err _ _ => none

/-- TotalPrice field of the booking returned by a successful response. -/
def okTotalPrice (r : ApiResult Booking) : Option ℚ :=
  match r with
  | .ok _ b => some b.totalPrice
  | .err _ _ => none

/-- Rollup fields (averageRating, totalReviews) of a vehicle in the store. -/
def vehicleRollup (s : Store) (vehicleId : Nat) : Option (ℚ × Nat) :=
  (findVehicleById s vehicleId).map (fun v => (v.averageRating, v.totalReviews))

/-- Sample vehicle used by the concrete scenarios: id 1, 100 per day,
available, no reviews yet. -/
def sampleVehicle : Vehicle :=
  { id := 1, pricePerDay := 100, availability := true,
    averageRating := 0, totalReviews := 0 }

/-- Sample booking request for vehicle 1 covering days 10 to 13 (3 nights). -/
def sampleInput : CreateBookingInput :=
  { vehicleId := 1, startDate := 10 * 86400000, endDate := 13 * 86400000,
    pickupLocation := "A", dropoffLocation := "B", specialRequests := none }

/-- Initial store of the double-booking scenario: one available vehicle and no
bookings. -/
def dbStore0 : Store :=
  { bookings := [], vehicles := [sampleVehicle], reviews := [],
    nextBookingId := 1, nextReviewId := 1 }

/-- Double-booking scenario, step 1: user 5 books days 10-13 (status pending). -/
def dbStep1 : ApiResult Booking × Store := createBooking dbStore0 5 sampleInput

/-- Double-booking scenario, step 2: user 6 books the same dates; the conflict
check passes because pending bookings are not blocking. -/
def dbStep2 : ApiResult Booking × Store := createBooking dbStep1.2 6 sampleInput

/-- Double-booking scenario, step 3: an admin approves the first booking. -/
def dbStep3 : ApiResult Booking × Store := updateBookingStatus dbStep2.2 1 .approved none

/-- Double-booking scenario, step 4: an admin approves the second booking over
the same dates; findByIdAndUpdate runs no conflict re-check. -/
def dbStep4 : ApiResult Booking × Store := updateBookingStatus dbStep3.2 2 .approved none

/-- Completed booking (for the review scenarios) of user u with id i on
vehicle 1. -/
def completedBooking (i u : Nat) : Booking :=
  { id := i, userId := u, vehicleId := 1, startDate := 0, endDate := 86400000,
    totalPrice := 100, status := .completed, pickupLocation := "A",
    dropoffLocation := "B", specialRequests := none, cancellationReason := none,
    adminNotes := none }

/-- Initial store of the rating-rollup scenario: vehicle 1 and three completed
bookings by users 1, 2 and 3. -/
def rrStore0 : Store :=
  { bookings := [completedBooking 1 1, completedBooking 2 2, completedBooking 3 3],
    vehicles := [sampleVehicle], reviews := [],
    nextBookingId := 4, nextReviewId := 1 }

/-- Rating scenario after user 1 reviews booking 1 with rating 5. -/
def rrStore1 : Store := (createReview rrStore0 1 1 1 5 none).2

/-- Rating scenario after user 2 additionally reviews booking 2 with rating 4. -/
def rrStore2 : Store := (createReview rrStore1 2 1 2 4 none).2

/-- Rating scenario after user 3 additionally reviews booking 3 with rating 3. -/
def rrStore3 : Store := (createReview rrStore2 3 1 3 3 none).2

/-- Rating scenario after user 3 deletes their rating-3 review (review id 3)
through the deleteReview handler. -/
def rrStore4 : Store := (deleteReview rrStore3 3 .user 3).2

/-- Booking request spanning 25 hours (day 10, 00:00 to day 11, 01:00). -/
def hours25Input : CreateBookingInput :=
  { vehicleId := 1, startDate := 10 * 86400000,
    endDate := 10 * 86400000 + 25 * 3600000,
    pickupLocation := "A", dropoffLocation := "B", specialRequests := none }

/-- Store of the createReview error scenario: vehicle 1 and one booking of
user 1 on vehicle 1 that is still pending, never completed. -/
def pendingOnlyStore : Store :=
  { bookings := [{ completedBooking 1 1 with status := .pending }],
    vehicles := [sampleVehicle], reviews := [],
    nextBookingId := 2, nextReviewId := 1 }

/-- Unfolding of the conflict filter into its logical content. -/
theorem conflictsWith_eq_true_iff (vehicleId : Nat) (startDate endDate : ℤ)
    (x : Option Nat) (b : Booking) :
    conflictsWith vehicleId startDate endDate x b = true ↔
      (b.vehicleId = vehicleId ∧ isBlockingStatus b.status = true ∧
       b.startDate < endDate ∧ b.endDate > startDate ∧
       ∀ y, x = some y → b.id ≠ y) := by
  cases x with
  | none => simp [conflictsWith, and_assoc]
  | some y =>
      simp only [conflictsWith, Bool.and_eq_true, decide_eq_true_eq,
        Bool.not_eq_true', decide_eq_false_iff_not, Option.some.injEq]
      constructor
      · rintro ⟨⟨⟨⟨h1, h2⟩, h3⟩, h4⟩, h5⟩
        exact ⟨h1, h2, h3, h4, fun z hz => hz ▸ h5⟩
      · rintro ⟨h1, h2, h3, h4, h5⟩
        exact ⟨⟨⟨⟨h1, h2⟩, h3⟩, h4⟩, h5 y rfl⟩

/-- Availability holds exactly when no stored booking passes the conflict
filter. -/
theorem checkAvailability_eq_true_iff (bs : List Booking) (v : Nat)
    (s e : ℤ) (x : Option Nat) :
    checkAvailability bs v s e x = true ↔
      ∀ b ∈ bs, conflictsWith v s e x b = false := by
  unfold checkAvailability
  rw [Option.isNone_iff_eq_none, List.find?_eq_none]
  simp [Bool.not_eq_true]

/-- Excluding an id can only remove conflicts: availability with no exclusion
implies availability with any exclusion. -/
theorem checkAvailability_exclude_mono (bs : List Booking) (v : Nat)
    (s e : ℤ) (y : Nat) (h : checkAvailability bs v s e none = true) :
    checkAvailability bs v s e (some y) = true := by
  rw [checkAvailability_eq_true_iff] at h ⊢
  intro b hb
  have hn := h b hb
  rw [Bool.eq_false_iff] at hn ⊢
  intro hc
  rw [conflictsWith_eq_true_iff] at hc
  exact hn (by rw [conflictsWith_eq_true_iff]; exact ⟨hc.1, hc.2.1, hc.2.2.1, hc.2.2.2.1, by simp⟩)

/-- Pair with a non-blocking left member is never conflicting. -/
theorem conflictingPair_eq_false_left (b1 b2 : Booking)
    (h : isBlockingStatus b1.status = false) : conflictingPair b1 b2 = false := by
  simp [conflictingPair, h]

/-- Pair with a non-blocking right member is never conflicting. -/
theorem conflictingPair_eq_false_right (b1 b2 : Booking)
    (h : isBlockingStatus b2.status = false) : conflictingPair b1 b2 = false := by
  simp [conflictingPair, h]

/-- The Bool invariant agrees with pairwise absence of conflicting pairs. -/
theorem noDoubleBooking_eq_true_iff (bs : List Booking) :
    noDoubleBooking bs = true ↔
      List.Pairwise (fun b1 b2 => conflictingPair b1 b2 = false) bs := by
  induction bs with
  | nil => simp [noDoubleBooking]
  | cons a rest ih =>
      simp [noDoubleBooking, List.pairwise_cons, ih, List.all_eq_true,
        Bool.not_eq_true', and_comm]

/-- Appending a non-blocking booking preserves the invariant. -/
theorem noDoubleBooking_append_nonblocking (bs : List Booking) (b : Booking)
    (hb : isBlockingStatus b.status = false) (h : noDoubleBooking bs = true) :
    noDoubleBooking (bs ++ [b]) = true := by
  rw [noDoubleBooking_eq_true_iff] at h ⊢
  rw [List.pairwise_append]
  refine ⟨h, by simp, ?_⟩
  intro x _ y hy
  rw [List.mem_singleton] at hy
  subst hy
  exact conflictingPair_eq_false_right x y hb

/-- Mapping a function that either leaves a booking unchanged or makes it
non-blocking preserves the invariant. -/
theorem noDoubleBooking_map_nonblocking (bs : List Booking) (g : Booking → Booking)
    (hg : ∀ x ∈ bs, g x = x ∨ isBlockingStatus (g x).status = false)
    (h : noDoubleBooking bs = true) : noDoubleBooking (bs.map g) = true := by
  rw [noDoubleBooking_eq_true_iff] at h ⊢
  rw [List.pairwise_map]
  refine List.Pairwise.imp_of_mem ?_ h
  intro x y hx hy hxy
  rcases hg x hx with hgx | hgx
  · rcases hg y hy with hgy | hgy
    · rw [hgx, hgy]; exact hxy
    · exact conflictingPair_eq_false_right _ _ hgy
  · exact conflictingPair_eq_false_left _ _ hgx

/-- Case analysis of the createBooking handler: each guard in source order,
with the response and store it produces. -/
theorem createBooking_spec_aux (s : Store) (uid : Nat) (i : CreateBookingInput) :
    (findVehicleById s i.vehicleId = none →
       (createBooking s uid i).1 = .err 404 "Vehicle not found"
       ∧ (createBooking s uid i).2 = s)
  ∧ (∀ v, findVehicleById s i.vehicleId = some v → v.availability = false →
       (createBooking s uid i).1 = .err 400 "Vehicle is not available"
       ∧ (createBooking s uid i).2 = s)
  ∧ (∀ v, findVehicleById s i.vehicleId = some v → v.availability = true →
       checkAvailability s.bookings i.vehicleId i.startDate i.endDate none = false →
       (createBooking s uid i).1 = .err 400 "Vehicle is not available for the selected dates"
       ∧ (createBooking s uid i).2 = s)
  ∧ (∀ v, findVehicleById s i.vehicleId = some v → v.availability = true →
       checkAvailability s.bookings i.vehicleId i.startDate i.endDate none = true →
       (createBooking s uid i).1 = .ok 201 (newBooking s uid i v)
       ∧ (createBooking s uid i).2
           = { s with bookings := s.bookings ++ [newBooking s uid i v],
                      nextBookingId := s.nextBookingId + 1 }) := by
  refine ⟨?_, ?_, ?_, ?_⟩
  · intro hv
    simp [createBooking, hv]
  · intro v hv ha
    simp [createBooking, hv, ha]
  · intro v hv ha hc
    simp [createBooking, hv, ha, hc]
  · intro v hv ha hc
    have hpre : bookingPreSaveOk s.bookings (newBooking s uid i v) = true :=
      checkAvailability_exclude_mono s.bookings i.vehicleId i.startDate i.endDate
        s.nextBookingId hc
    simp [createBooking, hv, ha, hc, hpre]

/-- C2: checkAvailability(v, s, e, x) is true iff no booking on v with status
in approved/active and id different from x satisfies existing.start < e and
existing.end > s; and a booking ending exactly at instant t never conflicts
with a query interval starting at t (half-open semantics). -/
theorem checkAvailability_halfOpen_spec (bs : List Booking) (v : Nat)
    (s e : ℤ) (x : Option Nat) :
    (checkAvailability bs v s e x = true ↔
      ∀ b ∈ bs, b.vehicleId = v → isBlockingStatus b.status = true →
        (∀ y, x = some y → b.id ≠ y) → ¬(b.startDate < e ∧ b.endDate > s))
  ∧ (∀ (b : Booking) (e2 : ℤ),
       checkAvailability [b] b.vehicleId b.endDate e2 none = true) := by
  constructor
  · rw [checkAvailability_eq_true_iff]
    constructor
    · intro h b hb h1 h2 h3 h4
      have hf := h b hb
      rw [Bool.eq_false_iff] at hf
      exact hf (by rw [conflictsWith_eq_true_iff]; exact ⟨h1, h2, h4.1, h4.2, h3⟩)
    · intro h b hb
      rw [Bool.eq_false_iff]
      intro hc
      rw [conflictsWith_eq_true_iff] at hc
      exact h b hb hc.1 hc.2.1 hc.2.2.2.2 ⟨hc.2.2.1, hc.2.2.2.1⟩
  · intro b e2
    rw [checkAvailability_eq_true_iff]
    intro b2 hb2
    rw [List.mem_singleton] at hb2
    subst hb2
    rw [Bool.eq_false_iff]
    intro hc
    rw [conflictsWith_eq_true_iff] at hc
    exact lt_irrefl _ hc.2.2.2.1

/-- Witness for C2 at a concrete input: an approved booking occupying
[0, 86400000) does not conflict with a new interval starting exactly at
86400000 on the same vehicle. -/
theorem checkAvailability_halfOpen_spec_witness :
    checkAvailability [{ completedBooking 1 1 with status := .approved }] 1
      86400000 259200000 none = true :=
  (checkAvailability_halfOpen_spec
      [{ completedBooking 1 1 with status := .approved }] 1 86400000 259200000 none).2
    { completedBooking 1 1 with status := .approved } 259200000

/-- C10: checkAvailability is antitone in the queried interval: a sub-interval
of an available interval is available. -/
theorem checkAvailability_antitone (bs : List Booking) (v : Nat)
    (s e s2 e2 : ℤ) (hs : s ≤ s2) (hlt : s2 < e2) (he : e2 ≤ e)
    (h : checkAvailability bs v s e none = true) :
    checkAvailability bs v s2 e2 none = true := by
  rw [checkAvailability_eq_true_iff] at h ⊢
  intro b hb
  have hn := h b hb
  rw [Bool.eq_false_iff] at hn ⊢
  intro hc
  rw [conflictsWith_eq_true_iff] at hc
  refine hn ?_
  rw [conflictsWith_eq_true_iff]
  exact ⟨hc.1, hc.2.1, lt_of_lt_of_le hc.2.2.1 he,
    lt_of_le_of_lt hs hc.2.2.2.1, by simp⟩

/-- Witness for C10: days [5,6) of the interval [1,10) remain available next
to an approved booking on days [0,1). -/
theorem checkAvailability_antitone_witness :
    checkAvailability [{ completedBooking 1 1 with status := .approved }] 1
      (5 * 86400000) (6 * 86400000) none = true :=
  checkAvailability_antitone [{ completedBooking 1 1 with status := .approved }] 1
    86400000 (10 * 86400000) (5 * 86400000) (6 * 86400000)
    (by decide) (by decide) (by decide) (by decide)

/-- C4: updateBookingStatus accepts any enum value unconditionally: for every
existing booking and every target status the update succeeds with HTTP 200
and sets the booking's status to the target, with no transition-table
check. -/
theorem updateBookingStatus_unconditional (s : Store) (bookingId : Nat)
    (b : Booking) (target : BookingStatus) (notes : Option String)
    (h : findBookingById s bookingId = some b) :
    (updateBookingStatus s bookingId target notes).1
        = .ok 200 (applyStatusUpdate target notes b)
    ∧ (applyStatusUpdate target notes b).status = target
    ∧ ∀ b2 ∈ (updateBookingStatus s bookingId target notes).2.bookings,
        b2.id = bookingId → b2.status = target := by
  refine ⟨by simp [updateBookingStatus, h], rfl, ?_⟩
  intro b2 hb2 hid
  simp only [updateBookingStatus, h, List.mem_map] at hb2
  obtain ⟨x, hx, hgx⟩ := hb2
  by_cases hxid : x.id = bookingId
  · rw [if_pos hxid] at hgx
    rw [← hgx]
    rfl
  · rw [if_neg hxid] at hgx
    subst hgx
    exact absurd hid hxid

/-- Witness for C4: cancelling a completed booking through the admin status
endpoint succeeds, even though the transition table calls completed
terminal. -/
theorem updateBookingStatus_unconditional_witness :
    (updateBookingStatus rrStore0 1 BookingStatus.cancelled none).1
      = ApiResult.ok 200
          (applyStatusUpdate BookingStatus.cancelled none (completedBooking 1 1)) :=
  (updateBookingStatus_unconditional rrStore0 1 (completedBooking 1 1)
    BookingStatus.cancelled none rfl).1

/-- C5: for a booking that resolves and an authorized caller, cancelBooking
succeeds (HTTP 200, status set to cancelled) exactly when the current status
is pending or approved; any other current status yields the invalid-state
HTTP 400 response and leaves the store unchanged. -/
theorem cancelBooking_state_guard (s : Store) (uid : Nat) (role : Role)
    (bookingId : Nat) (reason : Option String) (b : Booking)
    (hfind : findBookingById s bookingId = some b)
    (hauth : role = Role.admin ∨ b.userId = uid) :
    ((b.status = .pending ∨ b.status = .approved) →
       (cancelBooking s uid role bookingId reason).1
           = .ok 200 (applyCancel reason b)
       ∧ ∀ b2 ∈ (cancelBooking s uid role bookingId reason).2.bookings,
           b2.id = bookingId → b2.status = .cancelled)
  ∧ (¬(b.status = .pending ∨ b.status = .approved) →
       (cancelBooking s uid role bookingId reason).1
           = .err 400 "Booking cannot be cancelled in current status"
       ∧ (cancelBooking s uid role bookingId reason).2 = s) := by
  have hauthb : (!decide (role = Role.admin) && !decide (b.userId = uid)) = false := by
    rcases hauth with h | h <;> simp [h]
  constructor
  · intro hst
    have hstb : (!(decide (b.status = BookingStatus.pending)
        || decide (b.status = BookingStatus.approved))) = false := by
      rcases hst with h | h <;> simp [h]
    refine ⟨by simp [cancelBooking, hfind, hauthb, hstb], ?_⟩
    intro b2 hb2 hid
    simp only [cancelBooking, hfind, hauthb, hstb, Bool.false_eq_true,
      if_false, List.mem_map] at hb2
    obtain ⟨x, hx, hgx⟩ := hb2
    by_cases hxid : x.id = bookingId
    · rw [if_pos hxid] at hgx
      rw [← hgx]
      rfl
    · rw [if_neg hxid] at hgx
      subst hgx
      exact absurd hid hxid
  · intro hst
    rw [not_or] at hst
    have hstb : (!(decide (b.status = BookingStatus.pending)
        || decide (b.status = BookingStatus.approved))) = true := by
      simp [hst.1, hst.2]
    simp [cancelBooking, hfind, hauthb, hstb]

/-- Witness for C5: the owner cancels their pending booking (id 1 in the
double-booking scenario after step 1) and the response is 200 with status
cancelled. -/
theorem cancelBooking_state_guard_witness :
    (cancelBooking dbStep1.2 5 Role.user 1 none).1
      = ApiResult.ok 200
          (applyCancel none (newBooking dbStore0 5 sampleInput sampleVehicle)) := by
  have h := cancelBooking_state_guard dbStep1.2 5 Role.user 1 none
    (newBooking dbStore0 5 sampleInput sampleVehicle) rfl (Or.inr rfl)
  exact (h.1 (Or.inl rfl)).1

/-- Evaluation rule for the exact ceiling of an integer quotient. -/
theorem ceil_intCast_div (a b q : ℤ) (hb : 0 < b) (h1 : (q - 1) * b < a)
    (h2 : a ≤ q * b) : (⌈(a : ℚ) / (b : ℚ)⌉ : ℤ) = q := by
  have hb2 : (0:ℚ) < (b:ℚ) := by exact_mod_cast hb
  rw [Int.ceil_eq_iff]
  constructor
  · rw [lt_div_iff hb2]
    exact_mod_cast h1
  · rw [div_le_iff hb2]
    exact_mod_cast h2

/-- C9: no booking operation touches the Vehicle collection; in particular
availability is never changed by creating, approving, activating, completing
or cancelling a booking. -/
theorem booking_ops_preserve_vehicles (s : Store) (uid : Nat)
    (i : CreateBookingInput) (bid : Nat) (target : BookingStatus)
    (notes : Option String) (uid2 : Nat) (role : Role) (bid2 : Nat)
    (reason : Option String) :
    (createBooking s uid i).2.vehicles = s.vehicles
    ∧ (updateBookingStatus s bid target notes).2.vehicles = s.vehicles
    ∧ (cancelBooking s uid2 role bid2 reason).2.vehicles = s.vehicles := by
  refine ⟨?_, ?_, ?_⟩
  · unfold createBooking
    cases findVehicleById s i.vehicleId with
    | none => rfl
    | some v =>
        dsimp only
        split_ifs <;> rfl
  · unfold updateBookingStatus
    cases findBookingById s bid with
    | none => rfl
    | some b => rfl
  · unfold cancelBooking
    cases findBookingById s bid2 with
    | none => rfl
    | some b =>
        dsimp only
        split_ifs <;> rfl

/-- C1 (amended): the no-double-booking invariant is preserved by
createBooking (new bookings start pending, hence non-blocking) and by
cancelBooking (it only turns a booking into the non-blocking cancelled
status); updateBookingStatus is the operation that does not preserve it. -/
theorem create_cancel_preserve_noDoubleBooking (s : Store) (uid : Nat)
    (i : CreateBookingInput) (uid2 : Nat) (role : Role) (bid : Nat)
    (reason : Option String) (h : noDoubleBooking s.bookings = true) :
    noDoubleBooking (createBooking s uid i).2.bookings = true
    ∧ noDoubleBooking (cancelBooking s uid2 role bid reason).2.bookings = true := by
  obtain ⟨h1, h2, h3, h4⟩ := createBooking_spec_aux s uid i
  constructor
  · cases hv : findVehicleById s i.vehicleId with
    | none => rw [(h1 hv).2]; exact h
    | some v =>
        cases hav : v.availability with
        | false => rw [(h2 v hv hav).2]; exact h
        | true =>
            cases hc : checkAvailability s.bookings i.vehicleId i.startDate
                i.endDate none with
            | false => rw [(h3 v hv hav hc).2]; exact h
            | true =>
                rw [(h4 v hv hav hc).2]
                exact noDoubleBooking_append_nonblocking _ _ rfl h
  · unfold cancelBooking
    cases hf : findBookingById s bid with
    | none => exact h
    | some b =>
        dsimp only
        split_ifs with hg1 hg2
        · exact h
        · exact h
        · refine noDoubleBooking_map_nonblocking _ _ ?_ h
          intro x hx
          by_cases hxid : x.id = bid
          · right; simp [hxid, applyCancel, isBlockingStatus]
          · left; simp [hxid]

/-- Witness for the amended C1 at a concrete input: both operations keep the
invariant on the empty scenario store. -/
theorem create_cancel_preserve_noDoubleBooking_witness :
    noDoubleBooking (createBooking dbStore0 5 sampleInput).2.bookings = true
    ∧ noDoubleBooking (cancelBooking dbStore0 5 Role.user 1 none).2.bookings = true :=
  create_cancel_preserve_noDoubleBooking dbStore0 5 sampleInput 5 Role.user 1 none
    (by decide)

/-- Counterexample to C1 as stated: a run of the engine itself — two
createBooking calls for the same dates (both pending), then two admin
updateBookingStatus calls approving both — succeeds at every step, starts
from an invariant-satisfying store, and ends with two approved overlapping
bookings on vehicle 1, violating the invariant. -/
theorem double_booking_reachable_cex :
    okStatusCode dbStep1.1 = some 201 ∧ okStatusCode dbStep2.1 = some 201
    ∧ okStatusCode dbStep3.1 = some 200 ∧ okStatusCode dbStep4.1 = some 200
    ∧ noDoubleBooking dbStep2.2.bookings = true
    ∧ noDoubleBooking dbStep4.2.bookings = false := by
  refine ⟨rfl, rfl, rfl, rfl, by decide, by decide⟩

/-- C8: createBooking answers 404 when the vehicle does not resolve, 400 when
the vehicle is unavailable or a date conflict with an approved/active booking
exists (store unchanged in each failure case), and on success creates the
booking with initial status pending and answers 201. -/
theorem createBooking_error_paths (s : Store) (uid : Nat) (i : CreateBookingInput) :
    (findVehicleById s i.vehicleId = none →
       (createBooking s uid i).1 = .err 404 "Vehicle not found"
       ∧ (createBooking s uid i).2 = s)
  ∧ (∀ v, findVehicleById s i.vehicleId = some v → v.availability = false →
       (createBooking s uid i).1 = .err 400 "Vehicle is not available"
       ∧ (createBooking s uid i).2 = s)
  ∧ (∀ v, findVehicleById s i.vehicleId = some v → v.availability = true →
       checkAvailability s.bookings i.vehicleId i.startDate i.endDate none = false →
       (createBooking s uid i).1 = .err 400 "Vehicle is not available for the selected dates"
       ∧ (createBooking s uid i).2 = s)
  ∧ (∀ v, findVehicleById s i.vehicleId = some v → v.availability = true →
       checkAvailability s.bookings i.vehicleId i.startDate i.endDate none = true →
       (createBooking s uid i).1 = .ok 201 (newBooking s uid i v)
       ∧ (newBooking s uid i v).status = .pending
       ∧ (createBooking s uid i).2.bookings = s.bookings ++ [newBooking s uid i v]) := by
  obtain ⟨h1, h2, h3, h4⟩ := createBooking_spec_aux s uid i
  refine ⟨h1, h2, h3, ?_⟩
  intro v hv hav hc
  obtain ⟨ha, hb⟩ := h4 v hv hav hc
  exact ⟨ha, rfl, by rw [hb]⟩

/-- Witness for C8: on the concrete scenario store, a request for an unknown
vehicle id answers 404, and a valid request answers 201 with the pending
booking. -/
theorem createBooking_error_paths_witness :
    (createBooking dbStore0 5 { sampleInput with vehicleId := 2 }).1
        = ApiResult.err 404 "Vehicle not found"
    ∧ (createBooking dbStore0 5 sampleInput).1
        = ApiResult.ok 201 (newBooking dbStore0 5 sampleInput sampleVehicle) := by
  constructor
  · exact ((createBooking_error_paths dbStore0 5
      { sampleInput with vehicleId := 2 }).1 rfl).1
  · exact ((createBooking_error_paths dbStore0 5 sampleInput).2.2.2
      sampleVehicle rfl rfl rfl).1

/-- C6 (amended): every booking created by createBooking has
totalPrice = ceil((endDate − startDate) / 1 day) × vehicle.pricePerDay; a
3-night booking at pricePerDay 100 costs 300, while a 25-hour booking spans
2 billable days (ceil(25/24) = 2), not 1. -/
theorem createBooking_totalPrice_formula (s : Store) (uid : Nat)
    (i : CreateBookingInput) (b : Booking)
    (h : (createBooking s uid i).1 = .ok 201 b) :
    ∃ v, findVehicleById s i.vehicleId = some v ∧
      b.totalPrice
        = ((⌈((i.endDate - i.startDate : ℤ) : ℚ) / (msPerDay : ℚ)⌉ : ℤ) : ℚ)
            * v.pricePerDay := by
  obtain ⟨h1, h2, h3, h4⟩ := createBooking_spec_aux s uid i
  cases hv : findVehicleById s i.vehicleId with
  | none => rw [(h1 hv).1] at h; exact absurd h (by simp)
  | some v =>
      cases hav : v.availability with
      | false => rw [(h2 v hv hav).1] at h; exact absurd h (by simp)
      | true =>
          cases hc : checkAvailability s.bookings i.vehicleId i.startDate
              i.endDate none with
          | false => rw [(h3 v hv hav hc).1] at h; exact absurd h (by simp)
          | true =>
              rw [(h4 v hv hav hc).1] at h
              simp only [ApiResult.ok.injEq, true_and] at h
              subst h
              exact ⟨v, rfl, rfl⟩

/-- Witness for C6 (amended) at the concrete 3-night input: the formula gives
3 × 100 = 300. -/
theorem createBooking_totalPrice_formula_witness :
    (newBooking dbStore0 5 sampleInput sampleVehicle).totalPrice = 300 := by
  obtain ⟨v, hv, hp⟩ := createBooking_totalPrice_formula dbStore0 5 sampleInput
    (newBooking dbStore0 5 sampleInput sampleVehicle) rfl
  have hv2 : v = sampleVehicle := by
    have : findVehicleById dbStore0 sampleInput.vehicleId = some sampleVehicle := rfl
    rw [this] at hv
    exact (Option.some.injEq _ _).mp hv.symm
  subst hv2
  rw [hp]
  have hd : (sampleInput.endDate - sampleInput.startDate : ℤ) = 259200000 := by
    norm_num [sampleInput]
  have hm : msPerDay = 86400000 := rfl
  rw [hd, hm, ceil_intCast_div 259200000 86400000 3 (by norm_num) (by norm_num)
    (by norm_num)]
  norm_num [sampleVehicle]

/-- Counterexample to C6 as stated: the 25-hour booking costs 2 ×
pricePerDay = 200, not 1 × pricePerDay = 100, because Math.ceil rounds
25/24 days up to 2. -/
theorem totalPrice_25h_cex :
    okTotalPrice (createBooking dbStore0 7 hours25Input).1 = some 200
    ∧ okTotalPrice (createBooking dbStore0 7 hours25Input).1 ≠ some ((1:ℚ) * 100) := by
  have hrun : (createBooking dbStore0 7 hours25Input).1
      = ApiResult.ok 201 (newBooking dbStore0 7 hours25Input sampleVehicle) := rfl
  have hprice : (newBooking dbStore0 7 hours25Input sampleVehicle).totalPrice = 200 := by
    show ((⌈((hours25Input.endDate - hours25Input.startDate : ℤ) : ℚ)
        / (msPerDay : ℚ)⌉ : ℤ) : ℚ) * sampleVehicle.pricePerDay = 200
    have hd : (hours25Input.endDate - hours25Input.startDate : ℤ) = 90000000 := by
      norm_num [hours25Input]
    have hm : msPerDay = 86400000 := rfl
    rw [hd, hm, ceil_intCast_div 90000000 86400000 2 (by norm_num) (by norm_num)
      (by norm_num)]
    norm_num [sampleVehicle]
  rw [hrun]
  constructor
  · simp [okTotalPrice, hprice]
  · simp only [okTotalPrice, hprice, ne_eq, Option.some.injEq]
    norm_num

/-- C7 (amended): when no completed booking of the caller on the vehicle
matches the given bookingId, createReview fails with the 404 not-found
response and creates no review record; a review is only ever created when
such a completed booking exists. -/
theorem createReview_requires_completed (s : Store) (uid vid bid : Nat)
    (rating : Nat) (c : Option String) :
    (findCompletedBooking s.bookings bid uid vid = none →
       (createReview s uid vid bid rating c).1
           = .err 404 "Completed booking not found or does not belong to you"
       ∧ (createReview s uid vid bid rating c).2 = s)
  ∧ (∀ (code : Nat) (r : Review),
       (createReview s uid vid bid rating c).1 = .ok code r →
       (findCompletedBooking s.bookings bid uid vid).isSome = true) := by
  constructor
  · intro h
    simp [createReview, h]
  · intro code r h
    cases hf : findCompletedBooking s.bookings bid uid vid with
    | none =>
        rw [createReview, hf] at h
        exact absurd h (by simp)
    | some b => rfl

/-- Witness for C7 (amended): with only a pending booking in the store, the
review request of user 1 answers the 404 not-found response. -/
theorem createReview_requires_completed_witness :
    (createReview pendingOnlyStore 1 1 1 5 none).1
      = ApiResult.err 404 "Completed booking not found or does not belong to you" :=
  ((createReview_requires_completed pendingOnlyStore 1 1 1 5 none).1 rfl).1

/-- Counterexample to C7 as stated: the failure response of createReview for
a missing completed booking carries HTTP status 404 (NotFoundError), not the
400 of a ValidationError, and the store is unchanged. -/
theorem createReview_notFound_cex :
    errStatusCode (createReview pendingOnlyStore 1 1 1 5 none).1 = some 404
    ∧ errStatusCode (createReview pendingOnlyStore 1 1 1 5 none).1 ≠ some 400
    ∧ (createReview pendingOnlyStore 1 1 1 5 none).2 = pendingOnlyStore :=
  ⟨rfl, by decide, rfl⟩

/-- C3: the code evaluated at the spec's own example.  Creating reviews with
ratings 5, 4, 3 for vehicle 1 yields averageRating 4.0 and totalReviews 3 as
the claim states, but deleting the rating-3 review through the deleteReview
handler leaves the rollup at (4.0, 3) instead of the claimed (4.5, 2):
Review.findByIdAndDelete never fires the post('remove') hook that would have
called calcAverageRating. -/
theorem rating_rollup_stale_after_delete :
    vehicleRollup rrStore3 1 = some (4, 3)
    ∧ okStatusCode (deleteReview rrStore3 3 Role.user 3).1 = some 200
    ∧ rrStore4.reviews.length = 2
    ∧ vehicleRollup rrStore4 1 = some (4, 3)
    ∧ vehicleRollup rrStore4 1 ≠ some (9/2, 2) := by
  have h3 : vehicleRollup rrStore3 1 = some (4, 3) := by
    simp only [vehicleRollup, rrStore3, rrStore2, rrStore1, rrStore0, createReview,
      findCompletedBooking, calcAverageRating, reviewsOfVehicle, jsRound,
      findVehicleById, completedBooking, sampleVehicle,
      List.find?_cons, List.find?_nil, List.filter_cons, List.filter_nil,
      List.map_cons, List.map_nil, List.sum_cons, List.sum_nil,
      List.length_cons, List.length_nil, List.isEmpty, Option.isSome, Option.map]
    norm_num
  have hvv : rrStore4.vehicles = rrStore3.vehicles := rfl
  have h4 : vehicleRollup rrStore4 1 = vehicleRollup rrStore3 1 := by
    unfold vehicleRollup findVehicleById
    rw [hvv]
  refine ⟨h3, rfl, rfl, h4.trans h3, ?_⟩
  rw [h4.trans h3]
  simp only [ne_eq, Option.some.injEq, Prod.mk.injEq, not_and]
  intro hq
  norm_num at hq

end VehicleRental
